import Mathlib

/-!
Verification of the waiver submission pipeline of `bat-waiver-app`.

Shallow embedding of:
  - `src/app/api/waiver/route.ts` — the `POST /api/waiver` handler:
    `dataUrlToBytes`, the validation / upload / insert / aftercare-email
    pipeline, modelled as a pure function from the parsed JSON body and an
    environment (clock, storage / database / email outcomes) to the full
    observable result (HTTP response, issued storage uploads, attempted and
    persisted database insert, attempted email dispatches).
  - `src/app/waiver/page.tsx` — the signature pad (`resize`, `clear`,
    `hasAnyInk`), the client payload field list, and `fileToDataURL`.

JavaScript strings are Lean `String` / `List Char`; byte arrays are
`List Nat` with every element `< 256`; JSON scalar values are `JsonVal`
(with `nul` covering both `null` and `undefined`, which the handler never
distinguishes: it only uses truthiness and `??`).
-/

/-- A JSON scalar value as the handler sees it; `nul` stands for both
`null` and an absent field (`undefined`). -/
inductive JsonVal where
  | nul
  | bool (b : Bool)
  | num (n : Int)
  | str (s : String)
  deriving Repr, DecidableEq

/-- JavaScript truthiness for `JsonVal` (`undefined`/`null`, `false`, `0`
and `""` are falsy). -/
def truthy : JsonVal → Bool
  | .nul => false
  | .bool b => b
  | .num n => n != 0
  | .str s => s != ""

/-- JavaScript `String(v)` coercion as used by template literals. -/
def jsToString : JsonVal → String
  | .nul => "null"
  | .bool b => if b then "true" else "false"
  | .num n => toString n
  | .str s => s

/-! ### Base64 (the `atob` builtin and Node's `Buffer.toString("base64")`)

`b64encode` is canonical base64 with `=` padding, as produced by
`Buffer.from(buf).toString("base64")` in `fileToDataURL`
(`page.tsx:258-263`).  `b64decode` models `atob` on such input: it
decodes four characters at a time, accepts `=` padding only at the end,
and fails (`none`, i.e. `atob` throws `InvalidCharacterError`) on a
character outside the alphabet or on a length that is not a multiple of
four. -/

def b64Chars : List Char :=
  "ABCDEFGHIJKLMNOPQRSTUVWXYZabcdefghijklmnopqrstuvwxyz0123456789+/".toList

/-- Index of a character in a list (JS `indexOf`, `none` for `-1`). -/
def charIndex (c : Char) : List Char → Option Nat
  | [] => none
  | d :: ds => if d = c then some 0 else (charIndex c ds).map (· + 1)

def encSextet (n : Nat) : Char := b64Chars.getD n 'A'

def decSextet (c : Char) : Option Nat := charIndex c b64Chars

def b64encode : List Nat → List Char
  | [] => []
  | [b0] =>
      [encSextet (b0 / 4), encSextet (b0 % 4 * 16), '=', '=']
  | [b0, b1] =>
      [encSextet (b0 / 4), encSextet (b0 % 4 * 16 + b1 / 16),
       encSextet (b1 % 16 * 4), '=']
  | b0 :: b1 :: b2 :: rest =>
      encSextet (b0 / 4) :: encSextet (b0 % 4 * 16 + b1 / 16) ::
      encSextet (b1 % 16 * 4 + b2 / 64) :: encSextet (b2 % 64) ::
      b64encode rest

def b64decode : List Char → Option (List Nat)
  | [] => some []
  | c0 :: c1 :: c2 :: c3 :: rest =>
      match decSextet c0, decSextet c1 with
      | some s0, some s1 =>
          if c2 = '=' then
            if c3 = '=' ∧ rest = [] then some [s0 * 4 + s1 / 16] else none
          else
            match decSextet c2 with
            | some s2 =>
                if c3 = '=' then
                  if rest = [] then
                    some [s0 * 4 + s1 / 16, s1 % 16 * 16 + s2 / 4]
                  else none
                else
                  match decSextet c3 with
                  | some s3 =>
                      (b64decode rest).map
                        (fun tl => (s0 * 4 + s1 / 16) :: (s1 % 16 * 16 + s2 / 4) ::
                                   (s2 % 4 * 64 + s3) :: tl)
                  | none => none
            | none => none
      | _, _ => none
  | _ => none

theorem decSextet_encSextet (n : Nat) (h : n < 64) :
    decSextet (encSextet n) = some n := by
  have key : ∀ i : Fin 64, decSextet (encSextet i.val) = some i.val := by decide
  exact key ⟨n, h⟩

theorem encSextet_ne_pad (n : Nat) (h : n < 64) : encSextet n ≠ '=' := by
  have key : ∀ i : Fin 64, encSextet i.val ≠ '=' := by decide
  exact key ⟨n, h⟩

theorem encSextet_ne_comma (n : Nat) : encSextet n ≠ ',' := by
  by_cases h : n < 64
  · have key : ∀ i : Fin 64, encSextet i.val ≠ ',' := by decide
    exact key ⟨n, h⟩
  · have hlen : b64Chars.length ≤ n := by
      have : b64Chars.length = 64 := by decide
      omega
    simp [encSextet, List.getD, List.getElem?_eq_none hlen]

/-- Round-trip of the base64 codec on byte lists. -/
theorem b64decode_b64encode (l : List Nat) (h : ∀ b ∈ l, b < 256) :
    b64decode (b64encode l) = some l := by
  induction l using b64encode.induct with
  | case1 => simp [b64encode, b64decode]
  | case2 b0 =>
      have hb0 : b0 < 256 := h b0 (by simp)
      have e0 := decSextet_encSextet (b0 / 4) (by omega)
      have e1 := decSextet_encSextet (b0 % 4 * 16) (by omega)
      simp [b64encode, b64decode, e0, e1]
      omega
  | case3 b0 b1 =>
      have hb0 : b0 < 256 := h b0 (by simp)
      have hb1 : b1 < 256 := h b1 (by simp)
      have e0 := decSextet_encSextet (b0 / 4) (by omega)
      have e1 := decSextet_encSextet (b0 % 4 * 16 + b1 / 16) (by omega)
      have e2 := decSextet_encSextet (b1 % 16 * 4) (by omega)
      have n2 := encSextet_ne_pad (b1 % 16 * 4) (by omega)
      simp [b64encode, b64decode, e0, e1, e2, n2]
      omega
  | case4 b0 b1 b2 rest ih =>
      have hb0 : b0 < 256 := h b0 (by simp)
      have hb1 : b1 < 256 := h b1 (by simp)
      have hb2 : b2 < 256 := h b2 (by simp)
      have hrest : ∀ b ∈ rest, b < 256 := fun b hb => h b (by simp [hb])
      have e0 := decSextet_encSextet (b0 / 4) (by omega)
      have e1 := decSextet_encSextet (b0 % 4 * 16 + b1 / 16) (by omega)
      have e2 := decSextet_encSextet (b1 % 16 * 4 + b2 / 64) (by omega)
      have e3 := decSextet_encSextet (b2 % 64) (by omega)
      have n2 := encSextet_ne_pad (b1 % 16 * 4 + b2 / 64) (by omega)
      have n3 := encSextet_ne_pad (b2 % 64) (by omega)
      simp [b64encode, b64decode, e0, e1, e2, e3, n2, n3, ih hrest]
      refine ⟨by omega, by omega, by omega⟩

/-! ### `dataUrlToBytes` (route.ts:6-14) and `fileToDataURL` (page.tsx:258-263)

`dataUrlToBytes` is modelled on `List Char` to mirror the JS string
operations: `split(",")` (of which only elements 0 and 1 are used),
`slice(5, indexOf(";"))` (with JS semantics `slice(5, -1)` when there is
no `";"`), and `atob`.  When the string contains no comma at all,
`b64` is JS `undefined` and `atob(undefined)` coerces it to the nine
character string `"undefined"` (whose length is not a multiple of four,
so `atob` throws). -/

/-- Characters of `l` before the first occurrence of `sep`
(JS `split(sep)[0]`). -/
def upToSep (sep : Char) : List Char → List Char
  | [] => []
  | c :: cs => if c = sep then [] else c :: upToSep sep cs

/-- Characters of `l` strictly between the first and second occurrence of
`sep` (JS `split(sep)[1]`); `none` when `sep` does not occur. -/
def afterSep (sep : Char) : List Char → Option (List Char)
  | [] => none
  | c :: cs => if c = sep then some (upToSep sep cs) else afterSep sep cs

/-- Index of the first `';'` (JS `indexOf(";")`, `none` for `-1`). -/
def semiIdx : List Char → Option Nat
  | [] => none
  | c :: cs => if c = ';' then some 0 else (semiIdx cs).map (· + 1)

/-- The five characters of the `"data:"` scheme tag. -/
def dataTag : List Char := ['d', 'a', 't', 'a', ':']

/-- Outcome of `dataUrlToBytes`: JS `null`, a decoded
`{ bytes, mime }` object, or a thrown exception (from `atob`). -/
inductive DecodeResult where
  | nullRes
  | ok (bytes : List Nat) (mime : String)
  | threw
  deriving Repr, DecidableEq

/-- `dataUrlToBytes` body on the character list of the input string. -/
def dataUrlToBytesL (l : List Char) : DecodeResult :=
  if l = [] then .nullRes
  else if l.take 5 ≠ dataTag then .nullRes
  else
    let meta := upToSep ',' l
    let b64 := (afterSep ',' l).getD "undefined".toList
    let mime :=
      match semiIdx meta with
      | some i => (meta.take i).drop 5
      | none => (meta.take (meta.length - 1)).drop 5
    match b64decode b64 with
    | some bytes => .ok bytes (String.mk mime)
    | none => .threw

/-- `dataUrlToBytes(dataUrl?: string | null)` (route.ts:6-14); `none` is
an absent / `null` / `undefined` field. -/
def dataUrlToBytes : Option String → DecodeResult
  | none => .nullRes
  | some s => dataUrlToBytesL s.toList

/-- `idFront.mime.split("/")[1] || "png"` (route.ts:100). -/
def extOf (mime : String) : String :=
  match afterSep '/' mime.toList with
  | some e => if e = [] then "png" else String.mk e
  | none => "png"

/-- `fileToDataURL` (page.tsx:258-263) on a non-null file with content
`bytes` and MIME type `mime`:
`data:${file.type};base64,${b64}`. -/
def fileToDataURL (bytes : List Nat) (mime : String) : String :=
  "data:" ++ mime ++ ";base64," ++ String.mk (b64encode bytes)

theorem toList_append : ∀ a b : String, (a ++ b).toList = a.toList ++ b.toList
  | ⟨_⟩, ⟨_⟩ => rfl

theorem upToSep_of_not_mem (sep : Char) (xs : List Char) (h : sep ∉ xs) :
    upToSep sep xs = xs := by
  induction xs with
  | nil => rfl
  | cons c cs ih =>
      simp only [List.mem_cons, not_or] at h
      simp [upToSep, Ne.symm h.1, ih h.2]

theorem upToSep_append (sep : Char) (xs ys : List Char) (h : sep ∉ xs) :
    upToSep sep (xs ++ sep :: ys) = xs := by
  induction xs with
  | nil => simp [upToSep]
  | cons c cs ih =>
      simp only [List.mem_cons, not_or] at h
      simp [upToSep, Ne.symm h.1, ih h.2]

theorem afterSep_append (sep : Char) (xs ys : List Char) (h : sep ∉ xs) :
    afterSep sep (xs ++ sep :: ys) = some (upToSep sep ys) := by
  induction xs with
  | nil => simp [afterSep]
  | cons c cs ih =>
      simp only [List.mem_cons, not_or] at h
      simp [afterSep, Ne.symm h.1, ih h.2]

theorem semiIdx_append (xs ys : List Char) (h : ';' ∉ xs) :
    semiIdx (xs ++ ';' :: ys) = some xs.length := by
  induction xs with
  | nil => simp [semiIdx]
  | cons c cs ih =>
      simp only [List.mem_cons, not_or] at h
      simp [semiIdx, Ne.symm h.1, ih h.2]

theorem b64encode_no_comma : ∀ l : List Nat, ',' ∉ b64encode l := by
  intro l
  induction l using b64encode.induct with
  | case1 => simp [b64encode]
  | case2 b0 =>
      simp [b64encode, Ne.symm (encSextet_ne_comma _)]
  | case3 b0 b1 =>
      simp [b64encode, Ne.symm (encSextet_ne_comma _)]
  | case4 b0 b1 b2 rest ih =>
      simp [b64encode, Ne.symm (encSextet_ne_comma _), ih]

/-- Round-trip of the embedded-binary codec: decoding the tagged string
produced by `fileToDataURL` recovers the bytes and the MIME type, for
byte values `< 256` and a MIME type containing neither `';'` nor `','`. -/
theorem dataUrl_roundtrip (bytes : List Nat) (mime : String)
    (hb : ∀ b ∈ bytes, b < 256)
    (hsemi : ';' ∉ mime.toList) (hcomma : ',' ∉ mime.toList) :
    dataUrlToBytes (some (fileToDataURL bytes mime)) = .ok bytes mime := by
  have hlist : (fileToDataURL bytes mime).toList =
      dataTag ++ mime.toList ++ (';' :: "base64".toList) ++
        (',' :: b64encode bytes) := by
    simp [fileToDataURL, toList_append]
    rfl
  have hpre_ne : dataTag ++ mime.toList ++ (';' :: "base64".toList) ++
      (',' :: b64encode bytes) ≠ ([] : List Char) := by
    simp [dataTag]
  have htake : (dataTag ++ mime.toList ++ (';' :: "base64".toList) ++
      (',' :: b64encode bytes)).take 5 = dataTag := by
    have h5 : (5 : Nat) = dataTag.length := by decide
    rw [List.append_assoc, List.append_assoc, h5, List.take_left]
  -- the part of the string before the first comma
  have hnc : ',' ∉ dataTag ++ mime.toList ++ (';' :: "base64".toList) := by
    simp only [List.mem_append, List.mem_cons, not_or]
    refine ⟨⟨by decide, hcomma⟩, by decide⟩
  have hmeta : upToSep ',' (dataTag ++ mime.toList ++ (';' :: "base64".toList) ++
      (',' :: b64encode bytes)) = dataTag ++ mime.toList ++ (';' :: "base64".toList) := by
    exact upToSep_append ',' _ _ hnc
  have hb64 : afterSep ',' (dataTag ++ mime.toList ++ (';' :: "base64".toList) ++
      (',' :: b64encode bytes)) = some (b64encode bytes) := by
    rw [afterSep_append ',' _ _ hnc,
        upToSep_of_not_mem ',' _ (b64encode_no_comma bytes)]
  have hns : ';' ∉ dataTag ++ mime.toList := by
    simp only [List.mem_append, not_or]
    exact ⟨by decide, hsemi⟩
  have hsemiIdx : semiIdx (dataTag ++ mime.toList ++ (';' :: "base64".toList)) =
      some (dataTag ++ mime.toList).length := by
    rw [List.append_assoc] at *
    exact semiIdx_append _ _ hns
  have hslice : ((dataTag ++ mime.toList ++ (';' :: "base64".toList)).take
      (dataTag ++ mime.toList).length).drop 5 = mime.toList := by
    rw [List.take_left]
    have h5 : (5 : Nat) = dataTag.length := by decide
    rw [h5, List.drop_left]
  simp only [dataUrlToBytes]
  rw [hlist, dataUrlToBytesL, if_neg hpre_ne,
      if_neg (by simp only [ne_eq, not_not]; exact htake)]
  simp only [hmeta, hb64, hsemiIdx, hslice, Option.getD_some,
    b64decode_b64encode bytes hb]
  cases mime with
  | mk l => rfl

/-! ### Signature pad (page.tsx:124-239)

The canvas is modelled at device-pixel resolution as its dimensions plus
an alpha-channel map.  `resize` (page.tsx:130-149) sets the dimensions
and then paints the whole surface with `fillStyle = '#fff'` /
`fillRect(0, 0, w, h)` — opaque white, i.e. alpha 255 everywhere (the
`fillRect` covers the full buffer: the context is scaled by the same
`dpr` used for the buffer size).  `clear` (page.tsx:151-162) erases the
buffer (`clearRect`, alpha 0) and then calls `resize` again with the
unchanged layout.  `hasAnyInk` (page.tsx:225-239) samples the alpha
channel of every 4th pixel in both axes and reports whether any sampled
alpha is `> 0`. -/

structure Canvas where
  width : Nat
  height : Nat
  alpha : Nat → Nat → Nat

/-- `resize` (page.tsx:130-149): fresh buffer of the layout size, then
`ctx.fillStyle = '#fff'; ctx.fillRect(0, 0, w, h)` — every pixel opaque
white (alpha 255). -/
def resize (w h : Nat) : Canvas :=
  { width := w, height := h, alpha := fun _ _ => 255 }

/-- `ctx.clearRect(0, 0, c.width, c.height)` — every pixel transparent. -/
def clearRect (c : Canvas) : Canvas :=
  { c with alpha := fun _ _ => 0 }

/-- `clear` (page.tsx:151-162): `clearRect` over the whole buffer, then
`resize()` with the unchanged container layout. -/
def clear (c : Canvas) : Canvas :=
  resize (clearRect c).width (clearRect c).height

/-- A stroke of positive length: paint alpha 255 on the pixels of `pts`
(the line segments drawn by the `pointermove` handler,
page.tsx:193-202). -/
def stroke (c : Canvas) (pts : List (Nat × Nat)) : Canvas :=
  { c with alpha := fun x y => if (x, y) ∈ pts then 255 else c.alpha x y }

/-- The sampled coordinates `0, 4, 8, …` below `n`
(`for (let y = 0; y < height; y += step)` with `step = 4`). -/
def sampleIdx (n : Nat) : List Nat :=
  (List.range ((n + 3) / 4)).map (fun j => 4 * j)

/-- `hasAnyInk` (page.tsx:225-239): false on a zero-sized buffer,
otherwise true iff some sampled pixel has alpha `> 0`. -/
def hasAnyInk (c : Canvas) : Bool :=
  if c.width = 0 || c.height = 0 then false
  else
    (sampleIdx c.height).any fun y =>
      (sampleIdx c.width).any fun x => decide (0 < c.alpha x y)

/-! ### The `POST /api/waiver` handler (route.ts:73-148)

The handler is modelled as a pure function of the parsed JSON body and
an environment supplying the clock and the outcomes of the external
calls (storage uploads, database insert, Brevo email `fetch`).  Its
result records everything observable: the HTTP response, the storage
uploads that were issued, the database insert that was attempted and
whether it persisted a record, and the email dispatches attempted. -/

/-- The fields of the request body the handler reads.  Scalar fields are
arbitrary JSON scalars; the two embedded-binary fields are strings when
present (`none` = absent / null). -/
structure Body where
  waiver_id : JsonVal
  client_name : JsonVal
  email : JsonVal
  phone : JsonVal
  dob : JsonVal
  procedure_type : JsonVal
  procedure_site : JsonVal
  send_aftercare : JsonVal
  signature_png : Option String
  id_photo_front : Option String
  /-- client-suppliable: route.ts:123 reads `body.signature_path` from
  the request when the signature branch did not overwrite it. -/
  signature_path : JsonVal
  /-- client-suppliable: route.ts:124 reads `body.id_photo_front_path`
  from the request when the ID branch did not overwrite it. -/
  id_photo_front_path : JsonVal
  deriving Repr, DecidableEq

/-- A `supabase.storage.from("waivers").upload(path, bytes, opts)` call. -/
structure UploadReq where
  path : String
  bytes : List Nat
  contentType : String
  upsert : Bool
  deriving Repr, DecidableEq

/-- The `insertPayload` object (route.ts:115-127). -/
structure InsertPayload where
  waiver_id : String
  client_name : JsonVal
  email : JsonVal
  phone : JsonVal
  dob : JsonVal
  procedure_type : JsonVal
  procedure_site : JsonVal
  signature_path : JsonVal
  id_photo_front_path : JsonVal
  send_aftercare : Bool
  timestamp_iso : String
  deriving Repr, DecidableEq

/-- A Supabase insert error (`error.message` / `.details` / `.hint`). -/
structure DbErr where
  message : String
  details : String
  hint : String
  deriving Repr, DecidableEq

/-- Outcome of the Brevo `fetch` in `sendAftercareEmail`
(route.ts:55-69): the response resolved with `r.ok` true, resolved with
`r.ok` false, or the `fetch` (or `r.text()`) rejected. -/
inductive EmailOutcome where
  | respOk
  | respErr
  | threw
  deriving Repr, DecidableEq

/-- The environment of one request: `Date.now()`, each upload's fate
(`true` = the promise fulfills), the insert error if any, the insert-time
`new Date().toISOString()`, and the email fetch outcome. -/
structure Env where
  nowMs : Nat
  uploadOutcome : String → Bool
  insertError : Option DbErr
  insertTimeIso : String
  emailOutcome : EmailOutcome

/-- The JSON body of a `NextResponse.json` produced by the handler,
together with its HTTP status. -/
structure Response where
  status : Nat
  ok : Bool
  error : Option String := none
  waiver_id : Option String := none
  details : Option String := none
  hint : Option String := none
  deriving Repr, DecidableEq

/-- Everything observable about one handler invocation. -/
structure HandlerResult where
  response : Response
  /-- storage uploads issued (in issue order). -/
  uploads : List UploadReq
  /-- the payload of the `supabase.from("waivers").insert` call, when the
  call was made at all. -/
  dbAttempt : Option InsertPayload
  /-- the persisted record: the attempted payload when the insert
  returned no error. -/
  inserted : Option InsertPayload
  /-- `sendAftercareEmail(to, name)` calls attempted. -/
  emailed : List (String × JsonVal)

/-- route.ts:76 — `body?.waiver_id || `BAT-${Date.now()}``. -/
def resolvedId (body : Body) (env : Env) : String :=
  if truthy body.waiver_id then jsToString body.waiver_id
  else "BAT-" ++ toString env.nowMs

/-- route.ts:87 — `waivers/${waiver_id}/signature.png`. -/
def sigPathFor (wid : String) : String :=
  "waivers/" ++ wid ++ "/signature.png"

/-- route.ts:101 — `waivers/${waiver_id}/id_front.${ext}`. -/
def idPathFor (wid ext : String) : String :=
  "waivers/" ++ wid ++ "/id_front." ++ ext

/-- route.ts:146 — the catch-all `{ ok:false, error:"Server error" }`. -/
def serverErrorResp : Response :=
  { status := 500, ok := false, error := some "Server error" }

/-- route.ts:79 — the validation failure response. -/
def validationResp : Response :=
  { status := 400, ok := false, error := some "Missing client_name or email" }

/-- route.ts:132-135 — the DB-insert failure response. -/
def dbErrorResp (e : DbErr) : Response :=
  { status := 500, ok := false, error := some e.message,
    details := some e.details, hint := some e.hint }

/-- route.ts:143 — the success response. -/
def okResp (wid : String) : Response :=
  { status := 200, ok := true, waiver_id := some wid }

/-- route.ts:138-143 — after a successful insert: dispatch the aftercare
email when `body.send_aftercare && body.email`, then return 200.  An
exception thrown by the dispatch (`EmailOutcome.threw`) propagates to the
outer catch (route.ts:144-147). -/
def emailStage (body : Body) (env : Env) (wid : String)
    (uploads : List UploadReq) (payload : InsertPayload) : HandlerResult :=
  if truthy body.send_aftercare && truthy body.email then
    match env.emailOutcome with
    | .threw =>
        { response := serverErrorResp, uploads := uploads,
          dbAttempt := some payload, inserted := some payload,
          emailed := [(jsToString body.email, body.client_name)] }
    | _ =>
        { response := okResp wid, uploads := uploads,
          dbAttempt := some payload, inserted := some payload,
          emailed := [(jsToString body.email, body.client_name)] }
  else
    { response := okResp wid, uploads := uploads,
      dbAttempt := some payload, inserted := some payload, emailed := [] }

/-- route.ts:129-136 — the `supabase.from("waivers").insert` call and its
error branch. -/
def insertStage (body : Body) (env : Env) (wid : String)
    (uploads : List UploadReq) (payload : InsertPayload) : HandlerResult :=
  match env.insertError with
  | some e =>
      { response := dbErrorResp e, uploads := uploads,
        dbAttempt := some payload, inserted := none, emailed := [] }
  | none => emailStage body env wid uploads payload

/-- route.ts:86-96 — the signature upload issued when `sig` decoded
(contentType is the hard-coded `"image/png"`, `upsert: true`). -/
def sigUpOf (wid : String) : DecodeResult → List UploadReq
  | .ok bytes _ =>
      [{ path := sigPathFor wid, bytes := bytes,
         contentType := "image/png", upsert := true }]
  | _ => []

/-- route.ts:94/123 — the `signature_path` column: the resolved storage
path when the signature decoded (the `if (sig)` branch overwrote it),
otherwise the client-supplied `body.signature_path ?? null` — on
`JsonVal` the `?? null` coalescing is the identity, since `nul` already
stands for null/undefined. -/
def sigPathOf (body : Body) (wid : String) : DecodeResult → JsonVal
  | .ok _ _ => .str (sigPathFor wid)
  | _ => body.signature_path

/-- route.ts:99-107 — the ID-photo upload issued when `idFront` decoded
(contentType is the decoded MIME, `upsert: true`). -/
def idUpOf (wid : String) : DecodeResult → List UploadReq
  | .ok bytes mime =>
      [{ path := idPathFor wid (extOf mime), bytes := bytes,
         contentType := mime, upsert := true }]
  | _ => []

/-- route.ts:108/124 — the `id_photo_front_path` column: the resolved
storage path when the ID photo decoded, otherwise the client-supplied
`body.id_photo_front_path ?? null` (identity on `JsonVal`). -/
def idPathOf (body : Body) (wid : String) : DecodeResult → JsonVal
  | .ok _ mime => .str (idPathFor wid (extOf mime))
  | _ => body.id_photo_front_path

/-- route.ts:115-127 — `insertPayload` (the `?? null` coalescing is the
identity on `JsonVal`, where `nul` already stands for null/undefined). -/
def mkPayload (body : Body) (env : Env) (wid : String)
    (sigPath idPath : JsonVal) : InsertPayload :=
  { waiver_id := wid, client_name := body.client_name,
    email := body.email, phone := body.phone, dob := body.dob,
    procedure_type := body.procedure_type,
    procedure_site := body.procedure_site,
    signature_path := sigPath, id_photo_front_path := idPath,
    send_aftercare := truthy body.send_aftercare,
    timestamp_iso := env.insertTimeIso }

/-- The `POST` handler (route.ts:73-148). -/
def POST (body : Body) (env : Env) : HandlerResult :=
  let wid := resolvedId body env
  if !truthy body.client_name || !truthy body.email then
    { response := validationResp, uploads := [], dbAttempt := none,
      inserted := none, emailed := [] }
  else
    match dataUrlToBytes body.signature_png with
    | .threw =>
        -- `atob` threw before any upload was issued (route.ts:85)
        { response := serverErrorResp, uploads := [], dbAttempt := none,
          inserted := none, emailed := [] }
    | sigR =>
      match dataUrlToBytes body.id_photo_front with
      | .threw =>
          -- `atob` threw after the signature upload was already issued
          { response := serverErrorResp, uploads := sigUpOf wid sigR,
            dbAttempt := none, inserted := none, emailed := [] }
      | idR =>
        let uploads := sigUpOf wid sigR ++ idUpOf wid idR
        -- route.ts:112 — `await Promise.all(uploads)`: any rejection
        -- propagates to the outer catch.
        if uploads.any (fun u => !env.uploadOutcome u.path) then
          { response := serverErrorResp, uploads := uploads,
            dbAttempt := none, inserted := none, emailed := [] }
        else
          insertStage body env wid uploads
            (mkPayload body env wid (sigPathOf body wid sigR)
              (idPathOf body wid idR))

/-- The JSON keys of `insertPayload` (route.ts:115-127): the columns of
the inserted `waivers` row. -/
def insertColumns : List String :=
  ["waiver_id", "client_name", "email", "phone", "dob", "procedure_type",
   "procedure_site", "signature_path", "id_photo_front_path",
   "send_aftercare", "timestamp_iso"]

/-- The JSON keys of the client-side submission payload
(page.tsx:388-468): the full WaiverSubmission as transmitted. -/
def submissionFields : List String :=
  ["waiver_id", "client_name", "email", "phone", "address", "dob",
   "emergency_contact", "emergency_phone", "id_type", "id_last4",
   "practitioner", "procedure_type", "procedure_site", "procedure_desc",
   "signature_png", "id_photo_front",
   "mh_diabetes", "mh_hemophilia", "mh_pregnancy", "mh_hepatitis",
   "mh_hiv", "mh_keloids", "mh_allergies", "mh_medication",
   "medical_notes",
   "ack_age", "ack_underage_ok", "ack_sober", "ack_truthful",
   "ack_permanent", "ack_placement", "ack_qs_answered", "ack_restrictions",
   "ack_hippa", "ack_fda_notice", "ack_infection_signs",
   "ack_infection_risk", "ack_seek_medical", "ack_aftercare_negligence",
   "ack_lightheaded", "ack_notify_artist", "ack_risks_assumed",
   "opt_photo", "opt_email", "send_aftercare", "user_agent",
   "timestamp_iso"]

/-! ### Helper lemmas about the pipeline stages -/

theorem sigPathFor_split (wid : String) :
    sigPathFor wid = "waivers/" ++ wid ++ "/" ++ "signature.png" := by
  unfold sigPathFor
  rw [String.append_assoc ("waivers/" ++ wid)]
  rfl

theorem idPathFor_split (wid ext : String) :
    idPathFor wid ext = "waivers/" ++ wid ++ "/" ++ ("id_front." ++ ext) := by
  unfold idPathFor
  rw [String.append_assoc ("waivers/" ++ wid), String.append_assoc ("waivers/" ++ wid)]
  rfl

theorem insertStage_uploads (body : Body) (env : Env) (wid : String)
    (ups : List UploadReq) (p : InsertPayload) :
    (insertStage body env wid ups p).uploads = ups := by
  unfold insertStage emailStage
  rcases env.insertError with _ | e
  · dsimp only
    split
    · rcases env.emailOutcome <;> rfl
    · rfl
  · rfl

theorem insertStage_dbAttempt (body : Body) (env : Env) (wid : String)
    (ups : List UploadReq) (p : InsertPayload) :
    (insertStage body env wid ups p).dbAttempt = some p := by
  unfold insertStage emailStage
  rcases env.insertError with _ | e
  · dsimp only
    split
    · rcases env.emailOutcome <;> rfl
    · rfl
  · rfl

theorem insertStage_inserted (body : Body) (env : Env) (wid : String)
    (ups : List UploadReq) (p : InsertPayload) :
    (insertStage body env wid ups p).inserted =
      if env.insertError = none then some p else none := by
  unfold insertStage emailStage
  rcases env.insertError with _ | e
  · dsimp only
    split
    · rcases env.emailOutcome <;> rfl
    · rfl
  · rfl

/-- An early-exit result of the handler: a response with no insert
attempt and no email dispatch. -/
def earlyResult (resp : Response) (ups : List UploadReq) : HandlerResult :=
  { response := resp, uploads := ups, dbAttempt := none, inserted := none,
    emailed := [] }

theorem insertStage_emailed (body : Body) (env : Env) (wid : String)
    (ups : List UploadReq) (p : InsertPayload) :
    (insertStage body env wid ups p).emailed =
      if env.insertError = none ∧
          (truthy body.send_aftercare && truthy body.email) = true
      then [(jsToString body.email, body.client_name)] else [] := by
  unfold insertStage emailStage
  rcases env.insertError with _ | e
  · dsimp only
    by_cases hc : (truthy body.send_aftercare && truthy body.email) = true
    · rw [if_pos hc, if_pos ⟨rfl, hc⟩]
      rcases env.emailOutcome <;> rfl
    · rw [if_neg hc, if_neg (fun hh => hc hh.2)]
  · simp

theorem insertStage_response (body : Body) (env : Env) (wid : String)
    (ups : List UploadReq) (p : InsertPayload) :
    (insertStage body env wid ups p).response =
      match env.insertError with
      | some e => dbErrorResp e
      | none =>
          if (truthy body.send_aftercare && truthy body.email) = true then
            (if env.emailOutcome = .threw then serverErrorResp else okResp wid)
          else okResp wid := by
  unfold insertStage emailStage
  rcases env.insertError with _ | e
  · dsimp only
    by_cases hc : (truthy body.send_aftercare && truthy body.email) = true
    · rw [if_pos hc, if_pos hc]
      rcases env.emailOutcome <;> simp
    · rw [if_neg hc, if_neg hc]
  · rfl

theorem mem_sigUpOf {wid : String} {r : DecodeResult} {u : UploadReq}
    (h : u ∈ sigUpOf wid r) : u.path = sigPathFor wid := by
  rcases r with _ | ⟨bytes, mime⟩ | _ <;> simp [sigUpOf] at h
  rw [h]

theorem mem_idUpOf {wid : String} {r : DecodeResult} {u : UploadReq}
    (h : u ∈ idUpOf wid r) : ∃ ext, u.path = idPathFor wid ext := by
  rcases r with _ | ⟨bytes, mime⟩ | _ <;> simp [idUpOf] at h
  exact ⟨extOf mime, by rw [h]⟩

/-- Every run of the handler either exits early (validation failure or a
thrown decode / upload rejection, with no insert attempt and no email)
or reaches the insert stage with the uploads and payload determined by
the decodes. -/
theorem POST_shape (body : Body) (env : Env) :
    POST body env = earlyResult validationResp []
  ∨ (∃ ups,
      (∀ u ∈ ups, u.path = sigPathFor (resolvedId body env) ∨
        ∃ ext, u.path = idPathFor (resolvedId body env) ext) ∧
      POST body env = earlyResult serverErrorResp ups)
  ∨ (∃ ups,
      ups = sigUpOf (resolvedId body env) (dataUrlToBytes body.signature_png) ++
            idUpOf (resolvedId body env) (dataUrlToBytes body.id_photo_front) ∧
      ups.any (fun u => !env.uploadOutcome u.path) = false ∧
      POST body env = insertStage body env (resolvedId body env) ups
        (mkPayload body env (resolvedId body env)
          (sigPathOf body (resolvedId body env)
            (dataUrlToBytes body.signature_png))
          (idPathOf body (resolvedId body env)
            (dataUrlToBytes body.id_photo_front)))) := by
  unfold POST
  by_cases hv : (!truthy body.client_name || !truthy body.email) = true
  · rw [if_pos hv]
    exact Or.inl rfl
  · rw [if_neg hv]
    rcases hsig : dataUrlToBytes body.signature_png with _ | ⟨sb, sm⟩ | _ <;>
      rcases hid : dataUrlToBytes body.id_photo_front with _ | ⟨ib, im⟩ | _ <;>
      dsimp only <;>
      first
        | exact Or.inr (Or.inl ⟨[], by simp, rfl⟩)
        | exact Or.inr (Or.inl ⟨_, fun u hu => Or.inl (mem_sigUpOf hu), rfl⟩)
        | (split <;> rename_i hany <;>
            first
              | exact Or.inr (Or.inl ⟨_, fun u hu => (List.mem_append.mp hu).elim
                  (fun hh => Or.inl (mem_sigUpOf hh))
                  (fun hh => Or.inr (mem_idUpOf hh)), rfl⟩)
              | exact Or.inr (Or.inr ⟨_, rfl, (Bool.not_eq_true _) ▸ hany, rfl⟩))

/-! ### Concrete fixtures used by the witnesses and counterexamples -/

/-- A well-formed request body: required fields present, a valid tagged
signature image, no ID photo. -/
def wfBody : Body :=
  { waiver_id := .str "BAT-LOCAL-7", client_name := .str "Ann Client",
    email := .str "ann@example.com", phone := .str "555-0100",
    dob := .str "1990-01-01", procedure_type := .str "Tattoo",
    procedure_site := .str "arm", send_aftercare := .bool true,
    signature_png := some "data:image/png;base64,AAAA",
    id_photo_front := none, signature_path := .nul,
    id_photo_front_path := .nul }

/-- An environment where every external call succeeds. -/
def okEnv : Env :=
  { nowMs := 1760227200000, uploadOutcome := fun _ => true,
    insertError := none, insertTimeIso := "2026-10-12T00:00:00.000Z",
    emailOutcome := .respOk }

/-! ### C1 -/

/-- C1: for every request body lacking a truthy `client_name` or a truthy
`email`, the handler returns the 400 `ok:false` validation response, and
no storage upload, no database insert and no email dispatch happen. -/
theorem C1_missing_required_fields_rejected (body : Body) (env : Env)
    (h : truthy body.client_name = false ∨ truthy body.email = false) :
    (POST body env).response.status = 400 ∧
    (POST body env).response.ok = false ∧
    (POST body env).response = validationResp ∧
    (POST body env).uploads = [] ∧
    (POST body env).dbAttempt = none ∧
    (POST body env).inserted = none ∧
    (POST body env).emailed = [] := by
  have hcond : (!truthy body.client_name || !truthy body.email) = true := by
    rcases h with h | h <;> simp [h]
  unfold POST
  rw [if_pos hcond]
  exact ⟨rfl, rfl, rfl, rfl, rfl, rfl, rfl⟩

theorem C1_witness :
    (truthy (Body.client_name { wfBody with client_name := .str "" }) = false ∨
      truthy (Body.email { wfBody with client_name := .str "" }) = false) ∧
    (POST { wfBody with client_name := .str "" } okEnv).response.status = 400 ∧
    (POST { wfBody with client_name := .str "" } okEnv).response.ok = false ∧
    (POST { wfBody with client_name := .str "" } okEnv).response = validationResp ∧
    (POST { wfBody with client_name := .str "" } okEnv).uploads = [] ∧
    (POST { wfBody with client_name := .str "" } okEnv).dbAttempt = none ∧
    (POST { wfBody with client_name := .str "" } okEnv).inserted = none ∧
    (POST { wfBody with client_name := .str "" } okEnv).emailed = [] :=
  ⟨Or.inl (by decide),
   C1_missing_required_fields_rejected { wfBody with client_name := .str "" }
     okEnv (Or.inl (by decide))⟩

/-! ### C4 -/

/-- C4: the claim says `hasInk()` is false on a freshly cleared surface.
On the code it is true: `clear()` calls `resize()`, which repaints the
whole surface with opaque white (`fillStyle = '#fff'`), so every sampled
pixel has alpha 255.  Evaluated here on a concrete 8×8 surface. -/
theorem C4_cleared_surface_reports_ink :
    hasAnyInk (clear { width := 8, height := 8, alpha := fun _ _ => 0 }) = true ∧
    hasAnyInk (stroke
      (clear { width := 8, height := 8, alpha := fun _ _ => 0 })
      [(1, 1), (1, 2)]) = true := by
  constructor <;> rfl

/-! ### C5 -/

/-- C5: if any storage upload issued for a submission fails, the handler
answers 500 `ok:false` and neither attempts nor performs the database
insert, and no email is dispatched. -/
theorem C5_upload_failure_aborts_before_insert (body : Body) (env : Env)
    (h : ∃ u ∈ (POST body env).uploads, env.uploadOutcome u.path = false) :
    (POST body env).response.status = 500 ∧
    (POST body env).response.ok = false ∧
    (POST body env).dbAttempt = none ∧
    (POST body env).inserted = none ∧
    (POST body env).emailed = [] := by
  rcases POST_shape body env with hs | ⟨ups, _, hs⟩ | ⟨ups, hups, hany, hs⟩
  · rw [hs] at h
    simp [earlyResult] at h
  · rw [hs]
    exact ⟨rfl, rfl, rfl, rfl, rfl⟩
  · exfalso
    rw [hs, insertStage_uploads] at h
    obtain ⟨u, hu, hfail⟩ := h
    have : ups.any (fun u => !env.uploadOutcome u.path) = true :=
      List.any_eq_true.mpr ⟨u, hu, by simp [hfail]⟩
    rw [hany] at this
    exact Bool.false_ne_true this

theorem C5_witness :
    (∃ u ∈ (POST wfBody { okEnv with uploadOutcome := fun _ => false }).uploads,
      ({ okEnv with uploadOutcome := fun _ => false } : Env).uploadOutcome u.path = false) ∧
    (POST wfBody { okEnv with uploadOutcome := fun _ => false }).response.status = 500 ∧
    (POST wfBody { okEnv with uploadOutcome := fun _ => false }).response.ok = false ∧
    (POST wfBody { okEnv with uploadOutcome := fun _ => false }).dbAttempt = none ∧
    (POST wfBody { okEnv with uploadOutcome := fun _ => false }).inserted = none ∧
    (POST wfBody { okEnv with uploadOutcome := fun _ => false }).emailed = [] :=
  ⟨by decide,
   C5_upload_failure_aborts_before_insert wfBody
     { okEnv with uploadOutcome := fun _ => false } (by decide)⟩

/-! ### C7 -/

/-- C7: the persisted record's `waiver_id` is the resolved one — the
client value when truthy, otherwise `BAT-` followed by `Date.now()` — and
every issued upload path lives under `waivers/<waiver_id>/`. -/
theorem C7_waiver_id_resolution_and_namespacing (body : Body) (env : Env)
    (p : InsertPayload) (h : (POST body env).inserted = some p) :
    p.waiver_id = resolvedId body env ∧
    (truthy body.waiver_id = true → p.waiver_id = jsToString body.waiver_id) ∧
    (truthy body.waiver_id = false →
      p.waiver_id = "BAT-" ++ toString env.nowMs) ∧
    ∀ u ∈ (POST body env).uploads, ∃ rest,
      u.path = "waivers/" ++ p.waiver_id ++ "/" ++ rest := by
  rcases POST_shape body env with hs | ⟨ups, _, hs⟩ | ⟨ups, hups, hany, hs⟩
  · rw [hs] at h
    simp [earlyResult] at h
  · rw [hs] at h
    simp [earlyResult] at h
  · rw [hs, insertStage_inserted] at h
    rcases henv : env.insertError with _ | e
    · rw [henv] at h
      simp only [if_true, Option.some.injEq, reduceIte] at h
      subst h
      refine ⟨rfl, ?_, ?_, ?_⟩
      · intro ht
        show resolvedId body env = jsToString body.waiver_id
        simp [resolvedId, ht]
      · intro ht
        show resolvedId body env = "BAT-" ++ toString env.nowMs
        simp [resolvedId, ht]
      · intro u hu
        rw [hs, insertStage_uploads, hups] at hu
        rcases List.mem_append.mp hu with hh | hh
        · exact ⟨"signature.png", by
            rw [mem_sigUpOf hh, sigPathFor_split]
            rfl⟩
        · obtain ⟨ext, hext⟩ := mem_idUpOf hh
          exact ⟨"id_front." ++ ext, by
            rw [hext, idPathFor_split]
            rfl⟩
    · rw [henv] at h
      simp at h

/-- The record `POST wfBody okEnv` persists (used by the witnesses). -/
def wfPayload : InsertPayload :=
  { waiver_id := "BAT-LOCAL-7", client_name := .str "Ann Client",
    email := .str "ann@example.com", phone := .str "555-0100",
    dob := .str "1990-01-01", procedure_type := .str "Tattoo",
    procedure_site := .str "arm",
    signature_path := .str "waivers/BAT-LOCAL-7/signature.png",
    id_photo_front_path := .nul, send_aftercare := true,
    timestamp_iso := "2026-10-12T00:00:00.000Z" }

theorem C7_witness :
    ((POST wfBody okEnv).inserted = some wfPayload) ∧
    wfPayload.waiver_id = resolvedId wfBody okEnv :=
  ⟨by decide,
   (C7_waiver_id_resolution_and_namespacing wfBody okEnv wfPayload (by decide)).1⟩

/-! ### C9 -/

/-- A body with no embedded signature at all but a client-supplied
`signature_path` carrying raw embedded-binary data. -/
def pathInjectionBody : Body :=
  { wfBody with signature_png := none,
                signature_path := .str "data:image/png;base64,AAAA" }

/-- C9 counterexample: the invariant fails.  When `signature_png` is
absent the `if (sig)` branch never overwrites `body.signature_path`, and
route.ts:123 inserts the client-supplied value verbatim
(`body.signature_path ?? null`).  A request with no embedded signature
but `signature_path` set to a raw tagged-base64 image string gets that
raw binary data inserted into the row — not a resolved storage path and
not null — with no upload issued and a 200 response. -/
theorem C9_counterexample :
    (POST pathInjectionBody okEnv).dbAttempt.map InsertPayload.signature_path =
      some (.str "data:image/png;base64,AAAA") ∧
    (POST pathInjectionBody okEnv).uploads = [] ∧
    (POST pathInjectionBody okEnv).response.ok = true := by
  decide

/-- C9 (amended): the embedded-binary fields are never insert columns
and the path columns are present; each path column of an attempted
insert is either the resolved `waivers/<waiver_id>/...` storage path
(when that attachment decoded) or the client-supplied
`body.signature_path` / `body.id_photo_front_path` passed through by
`?? null`; in particular the claimed only-resolved-path-or-null
invariant holds exactly when the client does not supply those fields
(null in, null-or-resolved-path out). -/
theorem C9_path_passthrough (body : Body) (env : Env)
    (p : InsertPayload) (h : (POST body env).dbAttempt = some p) :
    (p.signature_path = .str (sigPathFor p.waiver_id) ∨
      p.signature_path = body.signature_path) ∧
    ((∃ ext, p.id_photo_front_path = .str (idPathFor p.waiver_id ext)) ∨
      p.id_photo_front_path = body.id_photo_front_path) ∧
    (body.signature_path = .nul →
      (p.signature_path = .nul ∨
        p.signature_path = .str (sigPathFor p.waiver_id))) ∧
    (body.id_photo_front_path = .nul →
      (p.id_photo_front_path = .nul ∨
        ∃ ext, p.id_photo_front_path = .str (idPathFor p.waiver_id ext))) ∧
    "signature_png" ∉ insertColumns ∧
    "id_photo_front" ∉ insertColumns ∧
    "signature_path" ∈ insertColumns ∧
    "id_photo_front_path" ∈ insertColumns := by
  rcases POST_shape body env with hs | ⟨ups, _, hs⟩ | ⟨ups, hups, hany, hs⟩
  · rw [hs] at h
    simp [earlyResult] at h
  · rw [hs] at h
    simp [earlyResult] at h
  · rw [hs, insertStage_dbAttempt] at h
    simp only [Option.some.injEq] at h
    subst h
    refine ⟨?_, ?_, ?_, ?_, by decide, by decide, by decide, by decide⟩
    · rcases dataUrlToBytes body.signature_png with _ | ⟨bytes, mime⟩ | _
      · exact Or.inr rfl
      · exact Or.inl rfl
      · exact Or.inr rfl
    · rcases dataUrlToBytes body.id_photo_front with _ | ⟨bytes, mime⟩ | _
      · exact Or.inr rfl
      · exact Or.inl ⟨extOf mime, rfl⟩
      · exact Or.inr rfl
    · intro hnul
      rcases dataUrlToBytes body.signature_png with _ | ⟨bytes, mime⟩ | _
      · exact Or.inl hnul
      · exact Or.inr rfl
      · exact Or.inl hnul
    · intro hnul
      rcases dataUrlToBytes body.id_photo_front with _ | ⟨bytes, mime⟩ | _
      · exact Or.inl hnul
      · exact Or.inr ⟨extOf mime, rfl⟩
      · exact Or.inl hnul

theorem C9_witness :
    ((POST wfBody okEnv).dbAttempt = some wfPayload ∧
      Body.signature_path wfBody = .nul) ∧
    (wfPayload.signature_path = .nul ∨
      wfPayload.signature_path = .str (sigPathFor wfPayload.waiver_id)) :=
  ⟨⟨by decide, by decide⟩,
   (C9_path_passthrough wfBody okEnv wfPayload (by decide)).2.2.1 (by decide)⟩

/-! ### C10 -/

/-- C10: when the body carries `waiver_id` as a falsy value (null/absent,
empty string, 0, or false) the handler discards it and uses the generated
`BAT-<Date.now()>` identifier for the storage namespace and the database
record alike. -/
theorem C10_falsy_waiver_id_regenerated (body : Body) (env : Env)
    (hfalsy : body.waiver_id = .nul ∨ body.waiver_id = .str "" ∨
      body.waiver_id = .num 0 ∨ body.waiver_id = .bool false) :
    resolvedId body env = "BAT-" ++ toString env.nowMs ∧
    (∀ p, (POST body env).dbAttempt = some p →
      p.waiver_id = "BAT-" ++ toString env.nowMs) ∧
    (∀ u ∈ (POST body env).uploads, ∃ rest,
      u.path = "waivers/" ++ ("BAT-" ++ toString env.nowMs) ++ "/" ++ rest) := by
  have ht : truthy body.waiver_id = false := by
    rcases hfalsy with h | h | h | h <;> rw [h] <;> rfl
  have hres : resolvedId body env = "BAT-" ++ toString env.nowMs := by
    simp [resolvedId, ht]
  have hmem : ∀ u : UploadReq,
      (u.path = sigPathFor (resolvedId body env) ∨
        ∃ ext, u.path = idPathFor (resolvedId body env) ext) →
      ∃ rest, u.path = "waivers/" ++ ("BAT-" ++ toString env.nowMs) ++ "/" ++ rest := by
    intro u hu
    rcases hu with hh | ⟨ext, hh⟩
    · exact ⟨"signature.png", by rw [hh, sigPathFor_split, hres]⟩
    · exact ⟨"id_front." ++ ext, by rw [hh, idPathFor_split, hres]⟩
  refine ⟨hres, ?_, ?_⟩
  · intro p h
    rcases POST_shape body env with hs | ⟨ups, _, hs⟩ | ⟨ups, hups, hany, hs⟩
    · rw [hs] at h
      simp [earlyResult] at h
    · rw [hs] at h
      simp [earlyResult] at h
    · rw [hs, insertStage_dbAttempt] at h
      simp only [Option.some.injEq] at h
      subst h
      exact hres
  · intro u hu
    rcases POST_shape body env with hs | ⟨ups, hns, hs⟩ | ⟨ups, hups, hany, hs⟩
    · rw [hs] at hu
      simp [earlyResult] at hu
    · rw [hs] at hu
      exact hmem u (hns u hu)
    · rw [hs, insertStage_uploads, hups] at hu
      rcases List.mem_append.mp hu with hh | hh
      · exact hmem u (Or.inl (mem_sigUpOf hh))
      · exact hmem u (Or.inr (mem_idUpOf hh))

theorem C10_witness :
    ((Body.waiver_id { wfBody with waiver_id := .str "" } = .nul ∨
      Body.waiver_id { wfBody with waiver_id := .str "" } = .str "" ∨
      Body.waiver_id { wfBody with waiver_id := .str "" } = .num 0 ∨
      Body.waiver_id { wfBody with waiver_id := .str "" } = .bool false) ∧
    resolvedId { wfBody with waiver_id := .str "" } okEnv =
      "BAT-" ++ toString okEnv.nowMs) ∧
    resolvedId { wfBody with waiver_id := .str "" } okEnv = "BAT-1760227200000" :=
  ⟨⟨Or.inr (Or.inl rfl),
    (C10_falsy_waiver_id_regenerated { wfBody with waiver_id := .str "" } okEnv
      (Or.inr (Or.inl rfl))).1⟩, by decide⟩

/-! ### C2 -/

/-- C2 counterexample: the claim says the persisted record is a flattened
version of the full WaiverSubmission.  The client payload
(page.tsx:388-468) carries `practitioner`, consent acknowledgments,
medical flags and the user agent, none of which appear among the
`insertPayload` columns (route.ts:115-127). -/
theorem C2_counterexample :
    "practitioner" ∈ submissionFields ∧ "practitioner" ∉ insertColumns ∧
    "ack_age" ∈ submissionFields ∧ "ack_age" ∉ insertColumns ∧
    "mh_diabetes" ∈ submissionFields ∧ "mh_diabetes" ∉ insertColumns ∧
    "user_agent" ∈ submissionFields ∧ "user_agent" ∉ insertColumns ∧
    "address" ∈ submissionFields ∧ "address" ∉ insertColumns := by decide

/-- C2 (amended): the persisted record is a pruned flattening — exactly
the eleven columns of `insertPayload`, each either a submission field or
one of the substituted storage-path fields; the embedded-binary fields
are gone, and the timestamp and `send_aftercare` flag are
server-assigned from the insert-time clock and the body's truthiness. -/
theorem C2_persisted_record_shape :
    insertColumns = ["waiver_id", "client_name", "email", "phone", "dob",
      "procedure_type", "procedure_site", "signature_path",
      "id_photo_front_path", "send_aftercare", "timestamp_iso"] ∧
    "signature_png" ∉ insertColumns ∧
    "id_photo_front" ∉ insertColumns ∧
    (∀ c ∈ insertColumns, c ∈ submissionFields ∨ c = "signature_path" ∨
      c = "id_photo_front_path") ∧
    (∀ (body : Body) (env : Env) (p : InsertPayload),
      (POST body env).dbAttempt = some p →
      p.timestamp_iso = env.insertTimeIso ∧
      p.send_aftercare = truthy body.send_aftercare ∧
      p.waiver_id = resolvedId body env ∧
      p.client_name = body.client_name ∧ p.email = body.email ∧
      p.phone = body.phone ∧ p.dob = body.dob ∧
      p.procedure_type = body.procedure_type ∧
      p.procedure_site = body.procedure_site) := by
  refine ⟨rfl, by decide, by decide, by decide, ?_⟩
  intro body env p h
  rcases POST_shape body env with hs | ⟨ups, _, hs⟩ | ⟨ups, hups, hany, hs⟩
  · rw [hs] at h
    simp [earlyResult] at h
  · rw [hs] at h
    simp [earlyResult] at h
  · rw [hs, insertStage_dbAttempt] at h
    simp only [Option.some.injEq] at h
    subst h
    exact ⟨rfl, rfl, rfl, rfl, rfl, rfl, rfl, rfl, rfl⟩

theorem C2_witness :
    ((POST wfBody okEnv).dbAttempt = some wfPayload) ∧
    wfPayload.timestamp_iso = okEnv.insertTimeIso :=
  ⟨by decide,
   (C2_persisted_record_shape.2.2.2.2 wfBody okEnv wfPayload (by decide)).1⟩

/-! ### C3 -/

/-- C3 counterexample: with `send_aftercare` true and a present email,
when the email dispatch throws (e.g. the Brevo `fetch` rejects), the
handler does **not** return `200 ok:true`: the exception reaches the
outer catch and the response is `500 ok:false`, even though the record
was already inserted and the dispatch was attempted. -/
theorem C3_counterexample :
    (POST wfBody { okEnv with emailOutcome := .threw }).emailed =
      [("ann@example.com", .str "Ann Client")] ∧
    (POST wfBody { okEnv with emailOutcome := .threw }).inserted.isSome = true ∧
    (POST wfBody { okEnv with emailOutcome := .threw }).response.status = 500 ∧
    (POST wfBody { okEnv with emailOutcome := .threw }).response.ok = false := by
  decide

/-- C3 (amended): an email is dispatched only after a successful insert;
when `send_aftercare` and `email` are truthy on the success path exactly
one dispatch is attempted; a dispatch that resolves with a non-success
HTTP response leaves the 200 `ok:true` response intact, but a dispatch
that throws makes the handler answer 500 `ok:false` (the record stays
inserted). -/
theorem C3_aftercare_dispatch (body : Body) (env : Env) :
    ((POST body env).emailed ≠ [] →
      env.insertError = none ∧ (POST body env).inserted.isSome = true ∧
      (truthy body.send_aftercare && truthy body.email) = true ∧
      (POST body env).emailed = [(jsToString body.email, body.client_name)]) ∧
    (∀ p, (POST body env).inserted = some p →
      (truthy body.send_aftercare && truthy body.email) = true →
      (POST body env).emailed = [(jsToString body.email, body.client_name)] ∧
      (env.emailOutcome ≠ .threw →
        (POST body env).response = okResp (resolvedId body env)) ∧
      (env.emailOutcome = .threw →
        (POST body env).response = serverErrorResp)) := by
  rcases POST_shape body env with hs | ⟨ups, _, hs⟩ | ⟨ups, hups, hany, hs⟩
  · rw [hs]
    exact ⟨fun hne => absurd rfl hne, fun p hp => by simp [earlyResult] at hp⟩
  · rw [hs]
    exact ⟨fun hne => absurd rfl hne, fun p hp => by simp [earlyResult] at hp⟩
  · constructor
    · intro hne
      rw [hs, insertStage_emailed] at hne
      by_cases hcond : env.insertError = none ∧
          (truthy body.send_aftercare && truthy body.email) = true
      · refine ⟨hcond.1, ?_, hcond.2, ?_⟩
        · rw [hs, insertStage_inserted, if_pos hcond.1]
          rfl
        · rw [hs, insertStage_emailed, if_pos hcond]
      · rw [if_neg hcond] at hne
        exact absurd rfl hne
    · intro p hp hcond
      rw [hs, insertStage_inserted] at hp
      rcases henv : env.insertError with _ | e
      · rw [henv] at hp
        refine ⟨?_, ?_, ?_⟩
        · rw [hs, insertStage_emailed, if_pos ⟨henv, hcond⟩]
        · intro hmail
          rw [hs, insertStage_response, henv]
          simp only [if_pos hcond]
          rw [if_neg hmail]
        · intro hmail
          rw [hs, insertStage_response, henv]
          simp only [if_pos hcond]
          rw [if_pos hmail]
      · rw [henv] at hp
        simp at hp

theorem C3_witness :
    ((POST wfBody { okEnv with emailOutcome := .respErr }).inserted =
        some wfPayload ∧
      (truthy wfBody.send_aftercare && truthy wfBody.email) = true) ∧
    (POST wfBody { okEnv with emailOutcome := .respErr }).emailed =
      [(jsToString wfBody.email, wfBody.client_name)] :=
  ⟨⟨by decide, by decide⟩,
   ((C3_aftercare_dispatch wfBody { okEnv with emailOutcome := .respErr }).2
     wfPayload (by decide) (by decide)).1⟩

/-! ### C6 -/

/-- C6 counterexample: a present but malformed embedded-binary field is
not always treated as "not provided": a `data:`-tagged value whose
base64 payload is invalid makes `atob` throw, so the handler answers
500 `ok:false` with no upload and no insert instead of continuing. -/
theorem C6_counterexample :
    dataUrlToBytes (some "data:image/png;base64,%%%%") = .threw ∧
    (POST { wfBody with signature_png := some "data:image/png;base64,%%%%" }
      okEnv).response.status = 500 ∧
    (POST { wfBody with signature_png := some "data:image/png;base64,%%%%" }
      okEnv).response.ok = false ∧
    (POST { wfBody with signature_png := some "data:image/png;base64,%%%%" }
      okEnv).uploads = [] ∧
    (POST { wfBody with signature_png := some "data:image/png;base64,%%%%" }
      okEnv).dbAttempt = none := by
  decide

/-- C6 (amended): an embedded-binary field that is absent — or is a
string not starting with `data:` — decodes to null and is treated as not
provided: no upload is issued for it and the pipeline continues to a
successful insert and a 200 response.  Its path column is then the
client-supplied `body.signature_path` / `body.id_photo_front_path`
coalesced by `?? null` — so null exactly when the client supplied none
(route.ts:123-124).  (A `data:`-tagged field with an invalid base64
payload instead throws; see the counterexample.) -/
theorem C6_absent_or_untagged_fields_skipped (body : Body) (env : Env)
    (hname : truthy body.client_name = true)
    (hemail : truthy body.email = true)
    (hsig : dataUrlToBytes body.signature_png = .nullRes)
    (hid : dataUrlToBytes body.id_photo_front = .nullRes)
    (hins : env.insertError = none)
    (hmail : env.emailOutcome ≠ .threw) :
    (POST body env).uploads = [] ∧
    (∃ p, (POST body env).inserted = some p ∧
      p.signature_path = body.signature_path ∧
      p.id_photo_front_path = body.id_photo_front_path ∧
      (body.signature_path = .nul → p.signature_path = .nul) ∧
      (body.id_photo_front_path = .nul → p.id_photo_front_path = .nul)) ∧
    (POST body env).response = okResp (resolvedId body env) ∧
    dataUrlToBytes none = .nullRes ∧
    (∀ s : String, s.toList.take 5 ≠ dataTag →
      dataUrlToBytes (some s) = .nullRes) := by
  have hv : (!truthy body.client_name || !truthy body.email) = true → False := by
    simp [hname, hemail]
  have hpost : POST body env =
      insertStage body env (resolvedId body env) []
        (mkPayload body env (resolvedId body env) body.signature_path
          body.id_photo_front_path) := by
    unfold POST
    rw [if_neg hv, hsig, hid]
    rfl
  refine ⟨?_, ?_, ?_, rfl, ?_⟩
  · rw [hpost, insertStage_uploads]
  · refine ⟨mkPayload body env (resolvedId body env) body.signature_path
      body.id_photo_front_path, ?_, rfl, rfl, fun hh => hh, fun hh => hh⟩
    rw [hpost, insertStage_inserted, if_pos hins]
  · rw [hpost, insertStage_response, hins]
    by_cases hcond : (truthy body.send_aftercare && truthy body.email) = true
    · simp only [if_pos hcond]
      rw [if_neg hmail]
    · simp only [if_neg hcond]
  · intro s hs
    show dataUrlToBytesL s.toList = .nullRes
    by_cases he : s.toList = []
    · rw [dataUrlToBytesL, if_pos he]
    · rw [dataUrlToBytesL, if_neg he, if_pos hs]

/-- `wfBody` with the signature absent and an untagged ID-photo string. -/
def untaggedBody : Body :=
  { wfBody with signature_png := none, id_photo_front := some "notadataurl" }

theorem C6_witness :
    (truthy untaggedBody.client_name = true ∧
      dataUrlToBytes untaggedBody.signature_png = .nullRes ∧
      dataUrlToBytes untaggedBody.id_photo_front = .nullRes) ∧
    (POST untaggedBody okEnv).uploads = [] :=
  ⟨⟨by decide, by decide, by decide⟩,
   (C6_absent_or_untagged_fields_skipped untaggedBody okEnv (by decide)
     (by decide) (by decide) (by decide) rfl (by decide)).1⟩

/-! ### C8 -/

/-- C8 counterexample: the round-trip does not hold for every MIME type.
For a MIME type containing `';'` (legal in MIME parameters) the decoder
truncates at the first `';'`: encoding bytes `[0]` with MIME `a;b`
decodes back to MIME `a`, not `a;b`. -/
theorem C8_counterexample :
    dataUrlToBytes (some (fileToDataURL [0] "a;b")) = .ok [0] "a" ∧
    dataUrlToBytes (some (fileToDataURL [0] "a;b")) ≠ .ok [0] "a;b" := by
  decide

/-- C8 (amended): decoding the tagged embedded-binary string produced by
`fileToDataURL` yields exactly the original bytes and MIME type, for
every byte sequence (values < 256) and every MIME type containing
neither `';'` nor `','`. -/
theorem C8_roundtrip (bytes : List Nat) (mime : String)
    (hb : ∀ b ∈ bytes, b < 256)
    (hsemi : ';' ∉ mime.toList) (hcomma : ',' ∉ mime.toList) :
    dataUrlToBytes (some (fileToDataURL bytes mime)) = .ok bytes mime :=
  dataUrl_roundtrip bytes mime hb hsemi hcomma

theorem C8_witness :
    ((∀ b ∈ [0, 1, 77, 255], b < 256) ∧ ';' ∉ "image/png".toList ∧
      ',' ∉ "image/png".toList) ∧
    dataUrlToBytes (some (fileToDataURL [0, 1, 77, 255] "image/png")) =
      .ok [0, 1, 77, 255] "image/png" :=
  ⟨⟨by decide, by decide, by decide⟩,
   C8_roundtrip [0, 1, 77, 255] "image/png" (by decide) (by decide) (by decide)⟩
